import Mathlib

/-!
Verification of the card-game engine in `rest_api/game/models.py`.

The engine is shallowly embedded: each Django model class becomes a Lean
structure, each method a pure function that threads the mutated state
explicitly.  Database rows live in a `World` record (the tables); an
in-memory model instance that a method mutates is passed in and returned.
Python/Django runtime behaviour is made explicit:

* `datetime.now()` and the `asof` arguments become explicit `Int` instants
  (seconds); `timedelta(seconds=k)` becomes `+ k`.
* `random.shuffle` becomes an oracle `f : List Nat → List Nat` supplied by
  the caller; theorems about shuffling quantify over `f` (adding, where it
  matters, the fact that a real shuffle permutes its input).
* raising an exception becomes returning `Except.error`; Django rolls the
  enclosing transaction back, so an error carries no committed state.
* the unbounded recursion of `Deque.draw_cards` is embedded with explicit
  fuel (`drawCardsF`); running out of fuel models Python's `RecursionError`
  (the recursion that exhausts any finite fuel exhausts CPython's recursion
  limit as well).
-/

/-- The closed error taxonomy of `game/errors.py`, together with the Python
and Django runtime exceptions the engine can actually raise (these are not
in `errors.py`; they model `RecursionError`, `AttributeError`, `TypeError`,
`IndexError`, `ObjectDoesNotExist` and `MultipleObjectsReturned`). -/
inductive CAHError where
  | gameIsFull
  | gameFinished
  | gameNotStarted
  | notEnoughPlayers
  | playerNotInGame
  | permissionDenied
  | notEnoughCards
  | cardNotInDeque
  | cardDoesNotExist
  | cardIsNotOnTable
  | playerDoesNotHaveCard
  | playerHasAlreadyPlayed
  | recursionError
  | attributeError
  | typeError
  | indexError
  | objectDoesNotExist
  | multipleObjectsReturned
  deriving DecidableEq, Repr

/-- `class Card`: card ids are the Django primary keys.  The presentation
fields (`text`) play no role in the engine and are omitted; `pick` is kept
because black cards carry it. -/
structure Card where
  id : Nat
  is_black : Bool
  pick : Option Nat
  deriving DecidableEq, Repr

/-- `class Deque`: `cards` is the JSON-decoded pool (`self.cards`), `deque`
the JSON-decoded draw order (`self.deque`), `size` the stored counter.
`size` is an `Int` because Python arithmetic on the in-memory field is
unbounded. -/
structure Deque where
  cards : List Nat
  deque : List Nat
  size : Int
  deriving DecidableEq, Repr

/-- The list comprehension inside `Deque._remove_cards`: walk
`current_cards`, and for each card `try_pop` one occurrence from the
`collections.Counter` built from `cards_to_remove`.  The counter is
represented by the multiset of its remaining occurrences (a `List Nat`):
`element not in counter` is exactly `element ∉ remaining`, and decrementing
a count (deleting the key at zero) is exactly `remaining.erase element`.
Returns (leftover counter occurrences, the kept `new_cards`). -/
def removeScan : List Nat → List Nat → List Nat × List Nat
  | remaining, [] => (remaining, [])
  | remaining, c :: cs =>
    if c ∈ remaining then
      removeScan (remaining.erase c) cs
    else
      let r := removeScan remaining cs
      (r.1, c :: r.2)

/-- `Deque._remove_cards(cards_to_remove)`.  Note the source's
`num_cards_to_remove = len(cards_to_remove)` is taken AFTER
`cards_to_remove` was rebound to `Counter(cards_to_remove)`: `len` of a
`Counter` is its number of distinct keys, i.e. `cardsToRemove.dedup.length`.
The `CardNotInDequeError` raise precedes every field assignment, so an
error leaves the deque untouched. -/
def Deque.remove_cards (d : Deque) (cardsToRemove : List Nat) : Except CAHError Deque :=
  let numCardsToRemove := cardsToRemove.dedup.length
  let scanned := removeScan cardsToRemove d.cards
  if scanned.1.length ≠ 0 then .error .cardNotInDeque
  else .ok { d with cards := scanned.2, size := d.size - numCardsToRemove }

/-- `Deque.add_cards(new_cards)`. -/
def Deque.add_cards (d : Deque) (newCards : List Nat) : Deque :=
  { d with size := d.size + newCards.length, cards := d.cards ++ newCards }

/-- `Deque.shuffle()`: `random.shuffle` permutes a copy of the pool into the
draw order; the permutation chosen is the oracle `f`. -/
def Deque.shuffle (f : List Nat → List Nat) (d : Deque) : Deque :=
  { d with deque := f d.cards }

/-- `Deque.draw_cards(num_cards)` with explicit fuel for the recursive call
`self.draw_cards(num_cards - len(drawn_cards))`.  `none` means the fuel ran
out: the source recursion does not terminate from that state (modelling
Python's `RecursionError`).  The returned `Deque` is the in-memory object
at the moment of return or raise. -/
def drawCardsF (f : List Nat → List Nat) :
    Nat → Deque → Nat → Option (Deque × Except CAHError (List Nat))
  | 0, _, _ => none
  | fuel + 1, d, numCards =>
    if (numCards : Int) > d.size then some (d, .error .notEnoughCards)
    else
      let dq := d.deque
      if dq.length > numCards then
        let drawnCards := dq.take numCards
        match d.remove_cards drawnCards with
        | .error e => some (d, .error e)
        | .ok d1 => some ({ d1 with deque := dq.drop numCards }, .ok drawnCards)
      else
        let drawnCards := dq
        match d.remove_cards drawnCards with
        | .error e => some (d, .error e)
        | .ok d1 =>
          let d2 := Deque.shuffle f d1
          if drawnCards.length < numCards then
            match drawCardsF f fuel d2 (numCards - drawnCards.length) with
            | none => none
            | some (d3, .error e) => some (d3, .error e)
            | some (d3, .ok more) => some (d3, .ok (drawnCards ++ more))
          else
            some (d2, .ok drawnCards)

/-- `Deque.draw_cards` at a fuel that suffices for every terminating run
(a terminating run never nests deeper than `2*numCards + 2` calls: each
second level must draw at least one card).  Exhausted fuel is Python's
`RecursionError`. -/
def Deque.draw_cards (f : List Nat → List Nat) (d : Deque) (numCards : Nat) :
    Deque × Except CAHError (List Nat) :=
  match drawCardsF f (2 * numCards + 2) d numCards with
  | some r => r
  | none => (d, .error .recursionError)

/-- `Deque.draw_single_card()`: the source is literally
`return self.draw_cards(1)` — the one-element list, not its element. -/
def Deque.draw_single_card (f : List Nat → List Nat) (d : Deque) :
    Deque × Except CAHError (List Nat) :=
  d.draw_cards f 1

/-- `class Queue`: the JSON-decoded rotation list. -/
structure Queue where
  items : List Nat
  deriving DecidableEq, Repr

/-- `Queue.add_item(item)`. -/
def Queue.add_item (q : Queue) (item : Nat) : Queue :=
  { items := q.items ++ [item] }

/-- `Queue.pop_item()`: returns the popped head (or `none` on empty) and
the queue afterwards. -/
def Queue.pop_item (q : Queue) : Option Nat × Queue :=
  match q.items with
  | [] => (none, q)
  | poppedItem :: rest => (some poppedItem, { items := rest })

/-- `Queue.remove_item(item)`: the source keeps `[i for i in items if i != item]`. -/
def Queue.remove_item (q : Queue) (item : Nat) : Queue :=
  { items := q.items.filter (fun i => i != item) }

/-- `Game.Status = TextChoices('Status', 'CREATED STARTED FINISHED')`. -/
inductive GameStatus where
  | CREATED
  | STARTED
  | FINISHED
  deriving DecidableEq, Repr

/-- `Round.State(IntEnum)`. -/
inductive RoundState where
  | PLAY
  | PICK
  | WAITING_FINISH
  | FINISHED
  deriving DecidableEq, Repr

/-- The `IntEnum` values `PLAY = 1 .. FINISHED = 4`, used for the source's
ordered comparison `round.get_state() <= round.State.PICK`. -/
def RoundState.val : RoundState → Nat
  | .PLAY => 1
  | .PICK => 2
  | .WAITING_FINISH => 3
  | .FINISHED => 4

/-- `class Round`: the three timestamps are instants (`Int` seconds).  `id`
is the row's primary key; `Turn.round` refers to it. -/
structure Round where
  id : Nat
  card_czar : Nat
  black_card : Nat
  play_finish : Int
  pick_finish : Int
  round_finish : Int
  deriving DecidableEq, Repr

/-- `Round.get_state(asof)`: boundary instants resolve to the earlier
phase. -/
def Round.get_state (r : Round) (asof : Int) : RoundState :=
  if asof ≤ r.play_finish then .PLAY
  else if asof ≤ r.pick_finish then .PICK
  else if asof ≤ r.round_finish then .WAITING_FINISH
  else .FINISHED

/-- `class Turn`: `round` is the non-nullable foreign key to `Round`,
`card` the nullable foreign key to `Card`. -/
structure Turn where
  round : Nat
  player : Nat
  card : Option Nat
  deriving DecidableEq, Repr

/-- `class Player`: `current_game` holds the referenced game's id,
`current_hand` the hand's card ids (the `Hand` row with its many-to-many
card set, inlined), `score` the nullable score. -/
structure Player where
  id : Nat
  current_game : Option Nat
  current_hand : Option (List Nat)
  score : Option Nat
  deriving DecidableEq, Repr

/-- `class Game`: the aggregate root.  The current round and the owned
`Deque`/`Queue` rows are inlined (each is owned by exactly one game). -/
structure Game where
  id : Nat
  status : GameStatus
  host : Option Nat
  current_round : Option Round
  black_deque : Option Deque
  white_deque : Option Deque
  player_queue : Option Queue
  deriving DecidableEq, Repr

def Game.MIN_PLAYERS : Nat := 3
def Game.MAX_PLAYERS : Nat := 10
def Game.HAND_SIZE : Nat := 10
def Game.PLAY_PHASE_LENGTH_SECONDS : Int := 300
def Game.PICK_PHASE_LENGTH_SECONDS : Int := 300
def Game.FINISH_DELAY_SECONDS : Int := 1
def Game.WINNER_SCORE : Nat := 3

/-- The database tables: every `Card`, `Player`, `Game` and `Turn` row.
`next_round_id` is the `Round` table's primary-key sequence.  Rows are
kept in primary-key (insertion) order, which is the order Django's
unordered querysets fall back to for `first()`. -/
structure World where
  all_cards : List Card
  players : List Player
  games : List Game
  turns : List Turn
  next_round_id : Nat
  deriving DecidableEq, Repr

/-- `Player.objects.get(pk=pid)` (there is at most one row per id). -/
def World.getPlayer (w : World) (pid : Nat) : Option Player :=
  w.players.find? (fun p => p.id == pid)

/-- `player.save()`: write the mutated row back. -/
def World.setPlayer (w : World) (p : Player) : World :=
  { w with players := w.players.map (fun q => if q.id == p.id then p else q) }

/-- `Game.objects.get(pk=gid)`. -/
def World.getGame (w : World) (gid : Nat) : Option Game :=
  w.games.find? (fun g => g.id == gid)

/-- `game.save()`. -/
def World.setGame (w : World) (g : Game) : World :=
  { w with games := w.games.map (fun h => if h.id == g.id then g else h) }

/-- `game.player_set.all()`: `player_set` is the reverse side of
`Player.current_game`, so membership is exactly `current_game == game`. -/
def World.player_set (w : World) (gid : Nat) : List Player :=
  w.players.filter (fun p => p.current_game == some gid)

/-- `round.turn_set.all()`. -/
def World.turn_set (w : World) (rid : Nat) : List Turn :=
  w.turns.filter (fun t => t.round == rid)

/-- `Round.play_card(player, card)`: reject a second play by the same
player in the same round, else `Turn.objects.create(...)`. -/
def Round.play_card (w : World) (rid pid cid : Nat) : Except CAHError World :=
  if ((w.turn_set rid).filter (fun t => t.player == pid)).length > 0 then
    .error .playerHasAlreadyPlayed
  else
    .ok { w with turns := w.turns ++ [{ round := rid, player := pid, card := some cid }] }

/-- `Round.remove_player(player)`: no-op if the player has no turn.
Otherwise `player_turn.get()` runs first and, with two or more matching
turns, raises `MultipleObjectsReturned`.  With exactly one, the source
then calls `self.turn_set.remove(player_turn, bulk=False)`; Django only
defines `remove` on a reverse related manager when the foreign key is
nullable, and `Turn.round` is declared without `null=True`, so the
attribute lookup raises `AttributeError` at runtime and no field of the
turn is modified. -/
def Round.remove_player (w : World) (rid pid : Nat) : Except CAHError World :=
  let player_turn := (w.turn_set rid).filter (fun t => t.player == pid)
  if player_turn.length == 0 then .ok w
  else
    match player_turn with
    | [_] => .error .attributeError
    | _ => .error .multipleObjectsReturned

/-- `Game._get_winner()`: the members at the winning score; `.get()`
raises `MultipleObjectsReturned` past one row. -/
def Game.get_winner (w : World) (g : Game) : Except CAHError (Option Player) :=
  let winner := (w.player_set g.id).filter (fun p => p.score == some Game.WINNER_SCORE)
  if winner.length == 0 then .ok none
  else
    match winner with
    | [p] => .ok (some p)
    | _ => .error .multipleObjectsReturned

/-- The condition of `_update_state`'s auto-advance block:
`self.status == STARTED and self.current_round is not None and
self.current_round.get_state() == Round.State.FINISHED`. -/
def Game.round_finished (g : Game) (now : Int) : Bool :=
  match g.current_round with
  | none => false
  | some r => r.get_state now == RoundState.FINISHED

/-- `Game._draw_black_card()`: draw one card id from the black deque,
unwrap it with `[0]`, save the deque and fetch the `Card` row. -/
def Game.draw_black_card (f : List Nat → List Nat) (w : World) (g : Game) :
    Except CAHError (Game × Card) :=
  match g.black_deque with
  | none => .error .attributeError
  | some bd =>
    let r := bd.draw_single_card f
    match r.2 with
    | .error e => .error e
    | .ok cs =>
      let g1 := { g with black_deque := some r.1 }
      match cs with
      | [] => .error .indexError
      | cid :: _ =>
        match w.all_cards.find? (fun c => c.id == cid) with
        | none => .error .objectDoesNotExist
        | some card => .ok (g1, card)

/-- `Game._deal_cards_to_player(player)`: create an empty hand if needed,
top the hand up to `HAND_SIZE` from the white deque, and add the drawn
`Card` rows (`Card.objects.filter(id__in=new_card_ids)`, a set-membership
filter in table order; the many-to-many `add` ignores cards already in the
hand).  Hands never exceed `HAND_SIZE`, so the `Nat` shortfall matches the
Python subtraction. -/
def Game.deal_cards_to_player (f : List Nat → List Nat) (w : World) (g : Game) (pid : Nat) :
    Except CAHError (World × Game) :=
  match w.getPlayer pid with
  | none => .error .objectDoesNotExist
  | some p =>
    let wp :=
      match p.current_hand with
      | none =>
        let p1 := { p with current_hand := some ([] : List Nat) }
        (w.setPlayer p1, p1)
      | some _ => (w, p)
    let w1 := wp.1
    let p1 := wp.2
    let hand := p1.current_hand.getD []
    let num_cards_to_deal := Game.HAND_SIZE - hand.length
    if num_cards_to_deal = 0 then .ok (w1, g)
    else
      match g.white_deque with
      | none => .error .attributeError
      | some wd =>
        let r := wd.draw_cards f num_cards_to_deal
        match r.2 with
        | .error e => .error e
        | .ok new_card_ids =>
          let g1 := { g with white_deque := some r.1 }
          let added := (w1.all_cards.filter
              (fun c => new_card_ids.contains c.id && !(hand.contains c.id))).map (fun c => c.id)
          let p2 := { p1 with current_hand := some (hand ++ added) }
          .ok (w1.setPlayer p2, g1)

/-- The loop body of `Game._deal_cards()` over a fixed member snapshot. -/
def Game.deal_cards_go (f : List Nat → List Nat) :
    List Nat → World → Game → Except CAHError (World × Game)
  | [], w, g => .ok (w, g)
  | pid :: rest, w, g =>
    match Game.deal_cards_to_player f w g pid with
    | .error e => .error e
    | .ok (w1, g1) => Game.deal_cards_go f rest w1 g1

/-- `Game._deal_cards()`: `for player in self.player_set.all(): ...`. -/
def Game.deal_cards (f : List Nat → List Nat) (w : World) (g : Game) :
    Except CAHError (World × Game) :=
  Game.deal_cards_go f ((w.player_set g.id).map (fun p => p.id)) w g

/-- `Game._start_new_round()`: status guard, timestamps from `now`, czar
pop-and-requeue (`player_set.filter(id=czar_id).get()` raises
`ObjectDoesNotExist` on an empty pop or a stale id), black-card draw, new
`Round` row, deal, save.  The debugging `print` calls are side-effect
free and dropped. -/
def Game.start_new_round (f : List Nat → List Nat) (now : Int) (w : World) (g : Game) :
    Except CAHError (World × Game) :=
  if g.status = GameStatus.FINISHED then .error .gameFinished
  else
    let g1 := if g.status = GameStatus.CREATED then { g with status := GameStatus.STARTED } else g
    let play_finish := now + Game.PLAY_PHASE_LENGTH_SECONDS
    let pick_finish := play_finish + Game.PICK_PHASE_LENGTH_SECONDS
    let round_finish := pick_finish + Game.FINISH_DELAY_SECONDS
    match g1.player_queue with
    | none => .error .attributeError
    | some q =>
      let popped := q.pop_item
      match popped.1 with
      | none => .error .objectDoesNotExist
      | some czar_id =>
        match (w.player_set g1.id).filter (fun p => p.id == czar_id) with
        | [] => .error .objectDoesNotExist
        | [czar] =>
          let g2 := { g1 with player_queue := some (popped.2.add_item czar_id) }
          match Game.draw_black_card f w g2 with
          | .error e => .error e
          | .ok (g3, blackCard) =>
            let g4 := { g3 with current_round := some {
                id := w.next_round_id,
                card_czar := czar.id,
                black_card := blackCard.id,
                play_finish := play_finish,
                pick_finish := pick_finish,
                round_finish := round_finish } }
            let w1 := { w with next_round_id := w.next_round_id + 1 }
            match Game.deal_cards f w1 g4 with
            | .error e => .error e
            | .ok (w2, g5) => .ok (w2.setGame g5, g5)
        | _ => .error .multipleObjectsReturned

/-- The lazy deck initialisation at the tail of `Game._update_state`
(decks pre-seeded from the card table in primary-key order, then
shuffled), followed by `self.save()`. -/
def Game.init_deques (f : List Nat → List Nat) (w : World) (g : Game) : World × Game :=
  let g1 :=
    if g.black_deque = none then
      { g with black_deque := some (Deque.shuffle f
          (Deque.add_cards { cards := [], deque := [], size := 0 }
            ((w.all_cards.filter (fun c => c.is_black)).map (fun c => c.id)))) }
    else g
  let g2 :=
    if g1.white_deque = none then
      { g1 with white_deque := some (Deque.shuffle f
          (Deque.add_cards { cards := [], deque := [], size := 0 }
            ((w.all_cards.filter (fun c => !c.is_black)).map (fun c => c.id)))) }
    else g1
  (w.setGame g2, g2)

/-- `Game._update_state()`: lazily create the rotation queue, auto-advance
a finished round (stopping with status `FINISHED`, unsaved, when a winner
exists — the source `return`s before `self.save()`), then lazily create
the decks and save. -/
def Game.update_state (f : List Nat → List Nat) (now : Int) (w : World) (g : Game) :
    Except CAHError (World × Game) :=
  let g1 := if g.player_queue = none then { g with player_queue := some { items := [] } } else g
  if g1.status = GameStatus.STARTED ∧ g1.round_finished now = true then
    match Game.get_winner w g1 with
    | .error e => .error e
    | .ok (some _) => .ok (w, { g1 with status := GameStatus.FINISHED })
    | .ok none =>
      match Game.start_new_round f now w g1 with
      | .error e => .error e
      | .ok (w1, g2) => .ok (Game.init_deques f w1 g2)
  else
    .ok (Game.init_deques f w g1)

/-- `Game._pick_card(card, asof)`: the judging path.  The chosen card must
match an existing turn; the turn's player scores only if still seated
(`turn.player.score += 1` on a `None` score would be a Python
`TypeError`); the pick and finish timestamps are advanced to `asof`. -/
def Game.pick_card (w : World) (g : Game) (cid : Nat) (asof : Int) :
    Except CAHError (World × Game) :=
  match g.current_round with
  | none => .error .attributeError
  | some round =>
    let turn := (w.turn_set round.id).filter (fun t => t.card == some cid)
    if turn.length = 0 then .error .cardIsNotOnTable
    else
      match turn with
      | [t] =>
        match w.getPlayer t.player with
        | none => .error .objectDoesNotExist
        | some p =>
          let scored : Except CAHError Player :=
            if p.current_game = some g.id then
              match p.score with
              | none => .error .typeError
              | some s => .ok { p with score := some (s + 1) }
            else .ok p
          match scored with
          | .error e => .error e
          | .ok p1 =>
            let round1 := { round with
                pick_finish := asof,
                round_finish := asof + Game.FINISH_DELAY_SECONDS }
            .ok (w.setPlayer p1, { g with current_round := some round1 })
      | _ => .error .multipleObjectsReturned

/-- `Game._play_card(player, card, asof)`: the play path.  The player must
hold the card; the turn is recorded via `Round.play_card`; when the turn
count (including the turn just created) plus one reaches the member count,
the source force-advances `play_finish` to `asof` and recomputes
`pick_finish = asof + PICK_PHASE_LENGTH` and
`round_finish = asof + FINISH_DELAY` (sic: from `asof`, not from
`pick_finish`). -/
def Game.play_card_impl (w : World) (g : Game) (pid cid : Nat) (asof : Int) :
    Except CAHError (World × Game) :=
  match w.getPlayer pid with
  | none => .error .objectDoesNotExist
  | some p =>
    if p.current_hand = none ∨ ((p.current_hand.getD []).filter (fun c => c == cid)).length = 0 then
      .error .playerDoesNotHaveCard
    else
      match g.current_round with
      | none => .error .attributeError
      | some round =>
        match Round.play_card w round.id pid cid with
        | .error e => .error e
        | .ok w1 =>
          let g1 :=
            if (w1.turn_set round.id).length + 1 = (w1.player_set g.id).length then
              { g with current_round := some { round with
                  play_finish := asof,
                  pick_finish := asof + Game.PICK_PHASE_LENGTH_SECONDS,
                  round_finish := asof + Game.FINISH_DELAY_SECONDS } }
            else g
          .ok (w1, g1)

/-- `Game.play_card(player, card, asof)`: reconcile, status guards, then
czar/judging vs player/play dispatch on the round state as of `asof`. -/
def Game.play_card (f : List Nat → List Nat) (now asof : Int) (w : World) (g : Game)
    (pid cid : Nat) : Except CAHError (World × Game) :=
  match Game.update_state f now w g with
  | .error e => .error e
  | .ok (w1, g1) =>
    if g1.status = GameStatus.FINISHED then .error .gameFinished
    else if g1.status = GameStatus.CREATED then .error .gameNotStarted
    else
      match g1.current_round with
      | none => .error .attributeError
      | some round =>
        let round_state := round.get_state asof
        if pid = round.card_czar then
          if round_state ≠ RoundState.PICK then .error .permissionDenied
          else Game.pick_card w1 g1 cid asof
        else
          if round_state ≠ RoundState.PLAY then .error .permissionDenied
          else Game.play_card_impl w1 g1 pid cid asof

/-- `Game.add_player(player)`: reconcile, `GameFinished`/`GameIsFull`
guards, enqueue into the rotation queue, `player_set.add` (which sets
`player.current_game` and saves), deal, then reset the score to 0. -/
def Game.add_player (f : List Nat → List Nat) (now : Int) (w : World) (g : Game) (pid : Nat) :
    Except CAHError (World × Game) :=
  match Game.update_state f now w g with
  | .error e => .error e
  | .ok (w1, g1) =>
    if g1.status = GameStatus.FINISHED then .error .gameFinished
    else if (w1.player_set g1.id).length = Game.MAX_PLAYERS then .error .gameIsFull
    else
      match g1.player_queue with
      | none => .error .attributeError
      | some q =>
        let g2 := { g1 with player_queue := some (q.add_item pid) }
        match w1.getPlayer pid with
        | none => .error .objectDoesNotExist
        | some p =>
          let w2 := w1.setPlayer { p with current_game := some g2.id }
          match Game.deal_cards_to_player f w2 g2 pid with
          | .error e => .error e
          | .ok (w3, g3) =>
            match w3.getPlayer pid with
            | none => .error .objectDoesNotExist
            | some p1 =>
              .ok (w3.setPlayer { p1 with score := some 0 }, g3)

/-- `Game.remove_player(player)`: reconcile, dequeue, clear the player's
game/hand/score, finish a now-empty game, re-pick the host, and either
force a fresh round (departing czar during PLAY/PICK, judged at `now`) or
remove the player's turn.  The trailing `round.save()` saves the captured
old round object and changes nothing observable here. -/
def Game.remove_player (f : List Nat → List Nat) (now : Int) (w : World) (g : Game) (pid : Nat) :
    Except CAHError (World × Game) :=
  match Game.update_state f now w g with
  | .error e => .error e
  | .ok (w1, g1) =>
    match g1.player_queue with
    | none => .error .attributeError
    | some q =>
      let g2 := { g1 with player_queue := some (q.remove_item pid) }
      match w1.getPlayer pid with
      | none => .error .objectDoesNotExist
      | some p =>
        let w2 := w1.setPlayer { p with current_game := none, current_hand := none, score := none }
        if (w2.player_set g2.id).length = 0 then
          .ok (w2, { g2 with host := none, status := GameStatus.FINISHED, current_round := none })
        else
          let g3 :=
            if some pid = g2.host then
              { g2 with host := ((w2.player_set g2.id).head?).map (fun r => r.id) }
            else g2
          match g3.current_round with
          | none => .ok (w2, g3)
          | some round =>
            if pid = round.card_czar ∧ (round.get_state now).val ≤ RoundState.PICK.val then
              Game.start_new_round f now w2 g3
            else
              match Round.remove_player w2 round.id pid with
              | .error e => .error e
              | .ok w3 => .ok (w3, g3)

/-- `Player.leave_current_game()`: no-op without a current game, else
remove from that game and save it. -/
def Player.leave_current_game (f : List Nat → List Nat) (now : Int) (w : World) (pid : Nat) :
    Except CAHError World :=
  match w.getPlayer pid with
  | none => .error .objectDoesNotExist
  | some p =>
    match p.current_game with
    | none => .ok w
    | some gid =>
      match w.getGame gid with
      | none => .error .objectDoesNotExist
      | some g =>
        match Game.remove_player f now w g pid with
        | .error e => .error e
        | .ok (w1, g1) => .ok (w1.setGame g1)

/-- The tail of `Player.join_game` past the idempotence early return:
leave the current game, fetch the target game under lock, add the player
and save. -/
def Player.join_game_rest (f : List Nat → List Nat) (now : Int) (w : World) (pid gid : Nat) :
    Except CAHError World :=
  match Player.leave_current_game f now w pid with
  | .error e => .error e
  | .ok w1 =>
    match w1.getGame gid with
    | none => .error .objectDoesNotExist
    | some g =>
      match Game.add_player f now w1 g pid with
      | .error e => .error e
      | .ok (w2, g1) => .ok (w2.setGame g1)

/-- `Player.join_game(auth_token, game_id)`: the credential resolves to
the player row (credentials are only ever compared for equality, so the
lookup is modelled by the player id); joining the game the player is
already in returns immediately, changing nothing. -/
def Player.join_game (f : List Nat → List Nat) (now : Int) (w : World) (pid gid : Nat) :
    Except CAHError World :=
  match w.getPlayer pid with
  | none => .error .objectDoesNotExist
  | some p =>
    if p.current_game.isSome && p.current_game == some gid then .ok w
    else Player.join_game_rest f now w pid gid

/-! Concrete scenarios used by the counterexamples and witnesses below. -/

/-- A three-player round in its PLAY phase: player 1 is czar, player 2 has
already played card 50, player 3 holds card 60. -/
def roundW2 : Round :=
  { id := 0, card_czar := 1, black_card := 100, play_finish := 1000, pick_finish := 1300,
    round_finish := 1301 }

def gameW2 : Game :=
  { id := 0, status := .STARTED, host := some 1, current_round := some roundW2,
    black_deque := some { cards := [101], deque := [101], size := 1 },
    white_deque := some { cards := [], deque := [], size := 0 },
    player_queue := some { items := [2, 3, 1] } }

def worldW2 : World :=
  { all_cards := [{ id := 100, is_black := true, pick := some 1 },
      { id := 50, is_black := false, pick := none }, { id := 60, is_black := false, pick := none }],
    players := [{ id := 1, current_game := some 0, current_hand := some [9], score := some 0 },
      { id := 2, current_game := some 0, current_hand := some [50], score := some 0 },
      { id := 3, current_game := some 0, current_hand := some [60], score := some 0 }],
    games := [gameW2], turns := [{ round := 0, player := 2, card := some 50 }],
    next_round_id := 1 }

/-- A three-player round in its PLAY phase where non-czar player 2 has
played card 50 and now leaves. -/
def gameW4 : Game :=
  { id := 0, status := .STARTED, host := some 1,
    current_round := some roundW2,
    black_deque := some { cards := [], deque := [], size := 0 },
    white_deque := some { cards := [], deque := [], size := 0 },
    player_queue := some { items := [1, 2, 3] } }

def worldW4 : World :=
  { all_cards := [],
    players := [{ id := 1, current_game := some 0, current_hand := some [], score := some 0 },
      { id := 2, current_game := some 0, current_hand := some [], score := some 0 },
      { id := 3, current_game := some 0, current_hand := some [], score := some 0 }],
    games := [gameW4], turns := [{ round := 0, player := 2, card := some 50 }],
    next_round_id := 1 }

/-- A three-player game whose round (id 5) is in its PICK phase at instant
200, with seated player 2 already at the winning score; czar player 1
departs.  Every remaining hand is full so the forced new round deals
nothing. -/
def roundW5 : Round :=
  { id := 5, card_czar := 1, black_card := 100, play_finish := 100, pick_finish := 400,
    round_finish := 701 }

def gameW5 : Game :=
  { id := 0, status := .STARTED, host := some 1, current_round := some roundW5,
    black_deque := some { cards := [100], deque := [100], size := 1 },
    white_deque := some { cards := [], deque := [], size := 0 },
    player_queue := some { items := [2, 3, 1] } }

def worldW5 : World :=
  { all_cards := [{ id := 100, is_black := true, pick := some 1 }],
    players := [{ id := 1, current_game := some 0, current_hand := some [1, 2, 3, 4, 5, 6, 7, 8, 9, 10], score := some 0 },
      { id := 2, current_game := some 0, current_hand := some [11, 12, 13, 14, 15, 16, 17, 18, 19, 20], score := some 3 },
      { id := 3, current_game := some 0, current_hand := some [21, 22, 23, 24, 25, 26, 27, 28, 29, 30], score := some 0 }],
    games := [gameW5], turns := [], next_round_id := 6 }

/-- A CREATED game with no current round, one seated member and a
ten-card white deck; player 4 (no hand, no score) joins. -/
def gameW9 : Game :=
  { id := 0, status := .CREATED, host := some 1, current_round := none,
    black_deque := some { cards := [100], deque := [100], size := 1 },
    white_deque := some { cards := [41, 42, 43, 44, 45, 46, 47, 48, 49, 50], deque := [41, 42, 43, 44, 45, 46, 47, 48, 49, 50], size := 10 },
    player_queue := some { items := [1] } }

def worldW9 : World :=
  { all_cards := [{ id := 100, is_black := true, pick := some 1 },
      { id := 41, is_black := false, pick := none }, { id := 42, is_black := false, pick := none },
      { id := 43, is_black := false, pick := none }, { id := 44, is_black := false, pick := none },
      { id := 45, is_black := false, pick := none }, { id := 46, is_black := false, pick := none },
      { id := 47, is_black := false, pick := none }, { id := 48, is_black := false, pick := none },
      { id := 49, is_black := false, pick := none }, { id := 50, is_black := false, pick := none }],
    players := [{ id := 1, current_game := some 0, current_hand := some [31], score := some 0 },
      { id := 4, current_game := none, current_hand := none, score := none }],
    games := [gameW9], turns := [], next_round_id := 0 }

/-- Player 5 is already a member of game 7 and calls `join_game` on it. -/
def gameW10 : Game :=
  { id := 7, status := .CREATED, host := some 5, current_round := none,
    black_deque := none, white_deque := none, player_queue := none }

def worldW10 : World :=
  { all_cards := [],
    players := [{ id := 5, current_game := some 7, current_hand := some [1], score := some 2 }],
    games := [gameW10], turns := [], next_round_id := 0 }

/-- The world after player 4 joins `worldW9` (used by the C9 witness):
player 4 is seated with a freshly dealt ten-card hand and score 0. -/
def worldW9after : World :=
  { worldW9 with players := [{ id := 1, current_game := some 0, current_hand := some [31], score := some 0 }, { id := 4, current_game := some 0, current_hand := some [41, 42, 43, 44, 45, 46, 47, 48, 49, 50], score := some 0 }] }

/-- The game after player 4 joins `worldW9`: the white deck is drained and
the rotation queue holds both players. -/
def gameW9after : Game :=
  { gameW9 with white_deque := some { cards := [], deque := [], size := 0 }, player_queue := some { items := [1, 4] } }

/-! Helper lemmas. -/

/-- From the corrupted state `pool = [], drawOrder = [], size = 1` (reachable
through the duplicate-draw size miscount), `draw_cards 1` passes the size
check, draws nothing, reshuffles the empty pool and recurses on the very
same state: no amount of fuel returns. -/
theorem drawCardsF_stuck (fuel : Nat) :
    drawCardsF id fuel { cards := [], deque := [], size := 1 } 1 = none := by
  induction fuel with
  | zero => rfl
  | succ k ih =>
    rw [drawCardsF]
    norm_num [Deque.remove_cards, removeScan, Deque.shuffle, ih]

/-- A run of `draw_cards` that returns `ok` returns exactly the requested
number of cards. -/
theorem drawCardsF_ok_length (f : List Nat → List Nat) :
    ∀ (fuel : Nat) (d : Deque) (n : Nat) (d1 : Deque) (cs : List Nat),
      drawCardsF f fuel d n = some (d1, Except.ok cs) → cs.length = n := by
  intro fuel
  induction fuel with
  | zero => intro d n d1 cs h; exact absurd h (by simp [drawCardsF])
  | succ k ih =>
    intro d n d1 cs h
    rw [drawCardsF] at h
    dsimp only at h
    split at h
    · simp at h
    · split at h
      · rename_i hsize hlong
        split at h
        · simp at h
        · rename_i d2 hrem
          simp only [Option.some.injEq, Prod.mk.injEq, Except.ok.injEq] at h
          rw [← h.2, List.length_take]
          exact Nat.min_eq_left (Nat.le_of_lt hlong)
      · rename_i hsize hlong
        split at h
        · simp at h
        · rename_i d2 hrem
          split at h
          · rename_i hshort
            split at h
            · simp at h
            · simp at h
            · rename_i d3 more hrec
              simp only [Option.some.injEq, Prod.mk.injEq, Except.ok.injEq] at h
              rw [← h.2, List.length_append, ih _ _ _ _ hrec]
              exact Nat.add_sub_cancel' (Nat.le_of_not_lt hlong)
          · rename_i hshort
            simp only [Option.some.injEq, Prod.mk.injEq, Except.ok.injEq] at h
            rw [← h.2]
            exact Nat.le_antisymm (Nat.le_of_not_lt hlong) (Nat.le_of_not_lt hshort)

/-- The fuelled wrapper inherits the exact-count property. -/
theorem draw_cards_ok_length (f : List Nat → List Nat) (d d1 : Deque) (n : Nat) (cs : List Nat)
    (h : d.draw_cards f n = (d1, Except.ok cs)) : cs.length = n := by
  unfold Deque.draw_cards at h
  cases hx : drawCardsF f (2 * n + 2) d n with
  | none => rw [hx] at h; simp at h
  | some r =>
    rw [hx] at h
    have h2 : r = (d1, Except.ok cs) := h
    rw [h2] at hx
    exact drawCardsF_ok_length f _ _ _ _ _ hx

/-- A successful player lookup returns the row with the looked-up id. -/
theorem getPlayer_id (w : World) (pid : Nat) (p : Player) (h : w.getPlayer pid = some p) :
    p.id = pid := by
  have := List.find?_some h
  simpa using this

/-- Looking a player up after writing a row with that id back finds the
written row (no id is changed by the write). -/
theorem find?_map_replace (l : List Player) (p : Player) (pid : Nat)
    (hid : p.id = pid) (h : (l.find? (fun q => q.id == pid)).isSome) :
    (l.map (fun q => if q.id == p.id then p else q)).find? (fun q => q.id == pid) = some p := by
  subst hid
  induction l with
  | nil => simp at h
  | cons a l ih =>
    rw [List.map_cons]
    by_cases ha : a.id = p.id
    · rw [if_pos (beq_iff_eq.mpr ha)]
      exact List.find?_cons_of_pos _ (beq_iff_eq.mpr rfl)
    · have ha2 : (a.id == p.id) = false := beq_eq_false_iff_ne.mpr ha
      rw [if_neg (by simp [ha])]
      simp only [List.find?_cons, ha2] at h ⊢
      exact ih h

/-- `getPlayer` after `setPlayer` of a row with the same id. -/
theorem getPlayer_setPlayer (w : World) (p : Player) (pid : Nat)
    (hid : p.id = pid) (h : (w.getPlayer pid).isSome) :
    (w.setPlayer p).getPlayer pid = some p :=
  find?_map_replace w.players p pid hid h

/-! Claim theorems. -/

/-- C1: the claimed invariant `size = |pool|` is broken by the code.
Drawing 2 cards from the pool `[5, 5]` (two occurrences of the same value)
removes both occurrences from the pool but decrements `size` by
`len(Counter([5, 5])) = 1` — the number of distinct drawn values — leaving
`size = 1` over an empty pool instead of `size = 0`. -/
theorem draw_cards_size_miscount :
    Deque.draw_cards id { cards := [5, 5], deque := [5, 5], size := 2 } 2
      = ({ cards := [], deque := [], size := 1 }, Except.ok [5, 5])
    ∧ ({ cards := [], deque := [], size := 1 } : Deque).size
        ≠ (({ cards := [], deque := [], size := 1 } : Deque).cards.length : Int) :=
  ⟨rfl, by decide⟩

/-- C2: when the last non-czar player plays (at `asof = 500`, phase
lengths 300/300/1), the code sets `play_finish = 500`,
`pick_finish = 500 + 300 = 800`, but `round_finish = 500 + 1 = 501` —
computed from `asof`, not from `pick_finish` — so `round_finish` lands
BEFORE `pick_finish` (501 < 800) instead of at
`pick_finish + FINISH_DELAY = 801`: the three timestamps are not
monotonically increasing. -/
theorem play_card_early_advance_nonmonotonic :
    (Game.play_card id 500 500 worldW2 gameW2 3 60).toOption.map (fun p => p.2.current_round)
      = some (some { id := 0, card_czar := 1, black_card := 100, play_finish := 500, pick_finish := 800, round_finish := 501 })
    ∧ ((501 : Int) < 800)
    ∧ ((501 : Int) ≠ 800 + Game.FINISH_DELAY_SECONDS) :=
  ⟨rfl, by decide, by decide⟩

/-- C3 counterexample: `remove_item 1` on `[1, 2, 1]` removes BOTH
occurrences of 1, leaving `[2]`, not the `[2, 1]` the claim (remove only
the first occurrence) requires. -/
theorem remove_item_removes_all_occurrences :
    Queue.remove_item { items := [1, 2, 1] } 1 = { items := [2] }
    ∧ ({ items := [2] } : Queue) ≠ { items := [2, 1] } :=
  ⟨rfl, by decide⟩

/-- C3 (amended): `remove_item x` removes EVERY occurrence of `x` from the
queue, leaves the count of every other value unchanged, and is a no-op
when `x` is absent. -/
theorem remove_item_spec (q : Queue) (x : Nat) :
    x ∉ (q.remove_item x).items
    ∧ (∀ y, y ≠ x → (q.remove_item x).items.count y = q.items.count y)
    ∧ (x ∉ q.items → q.remove_item x = q) := by
  refine ⟨?_, ?_, ?_⟩
  · intro hx
    have := (List.mem_filter.mp hx).2
    simp at this
  · intro y hy
    show (q.items.filter (fun i => i != x)).count y = q.items.count y
    induction q.items with
    | nil => rfl
    | cons a l ih =>
      by_cases hax : a = x
      · subst hax
        rw [List.filter_cons_of_neg (by simp)]
        rw [List.count_cons_of_ne (fun hc => hy hc)]
        exact ih
      · rw [List.filter_cons_of_pos (by simp [hax])]
        by_cases hay : a = y
        · subst hay
          rw [List.count_cons_self, List.count_cons_self, ih]
        · rw [List.count_cons_of_ne (fun hc => hay hc.symm),
            List.count_cons_of_ne (fun hc => hay hc.symm)]
          exact ih
  · intro hx
    unfold Queue.remove_item
    have : q.items.filter (fun i => i != x) = q.items :=
      List.filter_eq_self.mpr (fun a ha => by
        simp only [bne_iff_ne, ne_eq, decide_eq_true_eq]
        exact fun hax => hx (hax ▸ ha))
    cases q
    simpa using this

/-- C6: from a fresh deque, `add_cards [5, 5]; shuffle; draw_cards 2`
reaches the corrupted state `pool = [], size = 1` (the success path applies
the size miscount); a subsequent `draw_cards 1` there passes the
`NotEnoughCards` check (1 ≤ size) yet can never produce any of the
documented outcomes: the recursion re-enters the same state forever and no
fuel suffices — Python raises `RecursionError`, which is neither
`NotEnoughCards` nor `CardNotInDeque`. -/
theorem draw_cards_divergence :
    Deque.draw_cards id
        (Deque.shuffle id (Deque.add_cards { cards := [], deque := [], size := 0 } [5, 5])) 2
      = ({ cards := [], deque := [], size := 1 }, Except.ok [5, 5])
    ∧ Deque.draw_cards id { cards := [], deque := [], size := 1 } 1
      = ({ cards := [], deque := [], size := 1 }, Except.error CAHError.recursionError)
    ∧ (∀ fuel, drawCardsF id fuel { cards := [], deque := [], size := 1 } 1 = none) :=
  ⟨rfl, rfl, drawCardsF_stuck⟩

/-- C7 counterexample: `draw_single_card` on a one-card deque returns the
unmodified result of `draw_cards 1` — the one-element sequence `[7]`, not
the bare card id 7 the claim describes. -/
theorem draw_single_card_returns_list :
    Deque.draw_single_card id { cards := [7], deque := [7], size := 1 }
      = Deque.draw_cards id { cards := [7], deque := [7], size := 1 } 1
    ∧ (Deque.draw_single_card id { cards := [7], deque := [7], size := 1 }).2
      = Except.ok [7] :=
  ⟨rfl, rfl⟩

/-- C7 (amended): `draw_single_card` returns `draw_cards 1` unmodified (no
unwrapping happens inside it), and on success that sequence has exactly one
element — which callers such as `_draw_black_card` unwrap with `[0]`. -/
theorem draw_single_card_singleton (f : List Nat → List Nat) (d d1 : Deque) (cs : List Nat)
    (h : d.draw_single_card f = (d1, Except.ok cs)) :
    d.draw_single_card f = d.draw_cards f 1 ∧ cs.length = 1 :=
  ⟨rfl, draw_cards_ok_length f d d1 1 cs h⟩

/-- C7 witness. -/
theorem draw_single_card_singleton_witness :
    Deque.draw_single_card id { cards := [8], deque := [8], size := 1 }
      = Deque.draw_cards id { cards := [8], deque := [8], size := 1 } 1
    ∧ ([8] : List Nat).length = 1 :=
  draw_single_card_singleton id { cards := [8], deque := [8], size := 1 }
    { cards := [], deque := [], size := 0 } [8] rfl

/-- C8: `Round.play_card` fails with `PlayerHasAlreadyPlayed` exactly when a
turn for `(round, player)` already exists (creating nothing), and otherwise
appends exactly one new turn for the pair. -/
theorem round_play_card_unique_turn (w : World) (rid pid cid : Nat) :
    ((∃ t ∈ w.turns, t.round = rid ∧ t.player = pid) →
      Round.play_card w rid pid cid = .error .playerHasAlreadyPlayed)
    ∧ ((¬ ∃ t ∈ w.turns, t.round = rid ∧ t.player = pid) →
      Round.play_card w rid pid cid
        = .ok { w with turns := w.turns ++ [{ round := rid, player := pid, card := some cid }] }) := by
  have key : (0 < ((w.turn_set rid).filter (fun t => t.player == pid)).length)
      ↔ ∃ t ∈ w.turns, t.round = rid ∧ t.player = pid := by
    rw [List.length_pos_iff_exists_mem]
    constructor
    · rintro ⟨t, ht⟩
      have h1 := List.mem_filter.mp ht
      have h2 := List.mem_filter.mp h1.1
      exact ⟨t, h2.1, by simpa using h2.2, by simpa using h1.2⟩
    · rintro ⟨t, htm, h1, h2⟩
      exact ⟨t, List.mem_filter.mpr ⟨List.mem_filter.mpr ⟨htm, by simpa using h1⟩,
        by simpa using h2⟩⟩
  constructor
  · intro hex
    unfold Round.play_card
    rw [if_pos (key.mpr hex)]
  · intro hnex
    unfold Round.play_card
    rw [if_neg (fun hpos => hnex (key.mp hpos))]

/-- C10: calling `join_game` with a credential whose player already sits in
the target game returns immediately: no error, and the world — membership,
rotation queue, hands, scores — is exactly as before. -/
theorem join_game_idempotent (f : List Nat → List Nat) (now : Int) (w : World)
    (pid gid : Nat) (p : Player)
    (hp : w.getPlayer pid = some p) (hg : p.current_game = some gid) :
    Player.join_game f now w pid gid = .ok w := by
  unfold Player.join_game
  rw [hp]
  simp [hg]

/-- C10 witness. -/
theorem join_game_idempotent_witness :
    Player.join_game id 0 worldW10 5 7 = .ok worldW10 :=
  join_game_idempotent id 0 worldW10 5 7
    { id := 5, current_game := some 7, current_hand := some [1], score := some 2 } rfl rfl

/-! Transport facts: saving a game or a player row touches only its own
table, so lookups in the other tables are unchanged (all definitional). -/

theorem getPlayer_setGame (w : World) (g : Game) (pid : Nat) :
    (w.setGame g).getPlayer pid = w.getPlayer pid := rfl

theorem player_set_setGame (w : World) (g : Game) (gid : Nat) :
    (w.setGame g).player_set gid = w.player_set gid := rfl

theorem turn_set_setGame (w : World) (g : Game) (rid : Nat) :
    (w.setGame g).turn_set rid = w.turn_set rid := rfl

theorem turn_set_setPlayer (w : World) (p : Player) (rid : Nat) :
    (w.setPlayer p).turn_set rid = w.turn_set rid := rfl

theorem all_cards_setGame (w : World) (g : Game) :
    (w.setGame g).all_cards = w.all_cards := rfl

theorem all_cards_setPlayer (w : World) (p : Player) :
    (w.setPlayer p).all_cards = w.all_cards := rfl

/-- When the rotation queue and both decks already exist and the
auto-advance condition does not hold, `_update_state` only re-saves the
game. -/
theorem update_state_skip (f : List Nat → List Nat) (now : Int) (w : World) (g : Game)
    (q : Queue) (bd wd : Deque)
    (hq : g.player_queue = some q) (hbd : g.black_deque = some bd)
    (hwd : g.white_deque = some wd)
    (hidle : ¬ (g.status = GameStatus.STARTED ∧ g.round_finished now = true)) :
    Game.update_state f now w g = .ok (w.setGame g, g) := by
  unfold Game.update_state Game.init_deques
  dsimp only
  rw [if_neg (show ¬ g.player_queue = none by simp [hq])]
  rw [if_neg hidle]
  rw [if_neg (show ¬ g.black_deque = none by simp [hbd])]
  rw [if_neg (show ¬ g.white_deque = none by simp [hwd])]

/-- C4 counterexample: in `worldW4`, non-czar player 2 has a turn in the
current round whose card reference is card 50; `Game.remove_player`
produces neither a retained turn with a cleared card nor a deleted turn —
it raises `AttributeError`, because `turn_set.remove` does not exist for
the non-nullable `Turn.round` foreign key. -/
theorem remove_player_with_turn_crashes :
    worldW4.turns = [{ round := 0, player := 2, card := some 50 }]
    ∧ Game.remove_player id 500 worldW4 gameW4 2 = .error .attributeError :=
  ⟨rfl, rfl⟩

/-- C4 (amended): `Game.removePlayer` on a non-czar member with exactly
one turn in the current round — the only multiplicity `Round.play_card`
can create for a `(round, player)` pair — reaches `Round.remove_player`,
whose `turn_set.remove(player_turn, bulk=False)` call raises
`AttributeError` (Django defines `remove` on a reverse related manager
only for nullable foreign keys, and `Turn.round` is non-nullable); no
turn field — in particular not the card reference — is modified. -/
theorem remove_player_turn_attribute_error (f : List Nat → List Nat) (now : Int)
    (w : World) (g : Game) (pid : Nat) (q : Queue) (r : Round) (bd wd : Deque) (p : Player)
    (t : Turn)
    (hq : g.player_queue = some q)
    (hr : g.current_round = some r)
    (hnf : r.get_state now ≠ RoundState.FINISHED)
    (hbd : g.black_deque = some bd)
    (hwd : g.white_deque = some wd)
    (hp : w.getPlayer pid = some p)
    (hmem : (w.setPlayer { p with current_game := none, current_hand := none, score := none }).player_set g.id ≠ [])
    (hczar : pid ≠ r.card_czar)
    (hturn : (w.turn_set r.id).filter (fun t => t.player == pid) = [t]) :
    Game.remove_player f now w g pid = .error .attributeError := by
  have hidle : ¬ (g.status = GameStatus.STARTED ∧ g.round_finished now = true) := by
    rintro ⟨-, hfin⟩
    rw [Game.round_finished, hr] at hfin
    exact hnf (by simpa using hfin)
  unfold Game.remove_player
  rw [update_state_skip f now w g q bd wd hq hbd hwd hidle]
  dsimp only
  rw [hq]
  dsimp only
  rw [getPlayer_setGame, hp]
  dsimp only
  rw [if_neg (show ¬ ((((w.setGame g).setPlayer { p with current_game := none, current_hand := none, score := none }).player_set g.id).length = 0) from fun h0 => hmem (List.length_eq_zero.mp h0))]
  by_cases hhost : some pid = g.host
  · rw [if_pos hhost]
    dsimp only
    rw [hr]
    dsimp only
    rw [if_neg (show ¬ (pid = r.card_czar ∧ (r.get_state now).val ≤ RoundState.PICK.val) from
      fun hc => hczar hc.1)]
    unfold Round.remove_player
    rw [turn_set_setPlayer, turn_set_setGame, hturn]
    rfl
  · rw [if_neg hhost]
    dsimp only
    rw [hr]
    dsimp only
    rw [if_neg (show ¬ (pid = r.card_czar ∧ (r.get_state now).val ≤ RoundState.PICK.val) from
      fun hc => hczar hc.1)]
    unfold Round.remove_player
    rw [turn_set_setPlayer, turn_set_setGame, hturn]
    rfl

/-- C4 witness. -/
theorem remove_player_turn_attribute_error_witness :
    Game.remove_player id 450 worldW4 gameW4 2 = .error .attributeError :=
  remove_player_turn_attribute_error id 450 worldW4 gameW4 2
    { items := [1, 2, 3] } roundW2
    { cards := [], deque := [], size := 0 } { cards := [], deque := [], size := 0 }
    { id := 2, current_game := some 0, current_hand := some [], score := some 0 }
    { round := 0, player := 2, card := some 50 }
    rfl rfl (by decide) rfl rfl rfl (by decide) (by decide) rfl

/-- C5 counterexample: in `worldW5`, seated player 2 already holds the
winning score (3) while round 5 is in its PICK phase at instant 200; the
czar (player 1) leaves, and `Game.remove_player` starts a fresh round
(id 6) with status still STARTED — a new round begins while a seated
player holds the winning score, with no winner check on this path. -/
theorem remove_czar_starts_round_despite_winner :
    (worldW5.getPlayer 2).map (fun p => (p.score, p.current_game))
      = some (some Game.WINNER_SCORE, some 0)
    ∧ gameW5.current_round.map (fun r => r.id) = some 5
    ∧ roundW5.get_state 200 = RoundState.PICK
    ∧ (Game.remove_player id 200 worldW5 gameW5 1).toOption.map
        (fun p => (p.2.status, p.2.current_round.map (fun r => r.id),
          (p.1.getPlayer 2).map (fun s => (s.score, s.current_game))))
      = some (GameStatus.STARTED, some 6, some (some 3, some 0)) :=
  ⟨rfl, rfl, rfl, rfl⟩

/-- C5 (amended): reconciliation itself does guard the winner — when the
current round has FINISHED and a seated player holds the winning score,
`_update_state` sets the status to FINISHED and starts no new round (the
current round reference is untouched). -/
theorem update_state_finishes_on_winner (f : List Nat → List Nat) (now : Int)
    (w : World) (g : Game) (q : Queue) (r : Round) (p : Player)
    (hq : g.player_queue = some q)
    (hst : g.status = GameStatus.STARTED)
    (hr : g.current_round = some r)
    (hfin : r.get_state now = RoundState.FINISHED)
    (hwin : Game.get_winner w g = .ok (some p)) :
    Game.update_state f now w g = .ok (w, { g with status := GameStatus.FINISHED }) := by
  unfold Game.update_state
  dsimp only
  rw [if_neg (show ¬ g.player_queue = none by simp [hq])]
  rw [if_pos (And.intro hst (by simp [Game.round_finished, hr, hfin]))]
  rw [hwin]

/-- C5 witness: at instant 800 round 5 of `worldW5` has FINISHED and
player 2 holds the winning score; reconciliation finishes the game. -/
theorem update_state_finishes_on_winner_witness :
    Game.update_state id 800 worldW5 gameW5
      = .ok (worldW5, { gameW5 with status := GameStatus.FINISHED }) :=
  update_state_finishes_on_winner id 800 worldW5 gameW5 { items := [2, 3, 1] } roundW5
    { id := 2, current_game := some 0, current_hand := some [11, 12, 13, 14, 15, 16, 17, 18, 19, 20], score := some 3 }
    rfl rfl rfl (by decide) rfl

/-- C9 counterexample: `worldW9`'s game is CREATED with NO current round,
yet `add_player` deals a full ten-card hand (cards 41–50 from the white
deck) to the joining player 4 — the deal is unconditional, not gated on a
round being in progress. -/
theorem add_player_deals_without_round :
    gameW9.status = GameStatus.CREATED
    ∧ gameW9.current_round = none
    ∧ (Game.add_player id 0 worldW9 gameW9 4).toOption.map
        (fun p => (p.1.getPlayer 4, p.2.player_queue))
      = some (some { id := 4, current_game := some 0, current_hand := some [41, 42, 43, 44, 45, 46, 47, 48, 49, 50], score := some 0 }, some { items := [1, 4] }) :=
  ⟨rfl, rfl, rfl⟩

/-- C9 (amended): a successful `add_player` into a CREATED game enqueues
the player, seats them, resets their score to 0 and unconditionally tops
their (fresh) hand up with a full `HAND_SIZE`-card draw from the white
deck, current round or not. -/
theorem add_player_unconditional_deal (f : List Nat → List Nat) (now : Int)
    (w w1 : World) (g g1 : Game) (pid : Nat) (q : Queue) (bd wd : Deque) (p : Player)
    (hq : g.player_queue = some q)
    (hst : g.status = GameStatus.CREATED)
    (hbd : g.black_deque = some bd)
    (hwd : g.white_deque = some wd)
    (hp : w.getPlayer pid = some p)
    (hhand : p.current_hand = none)
    (h : Game.add_player f now w g pid = .ok (w1, g1)) :
    ∃ drawn : List Nat, drawn.length = Game.HAND_SIZE
      ∧ g1.player_queue = some (q.add_item pid)
      ∧ w1.getPlayer pid = some { id := p.id, current_game := some g.id, current_hand := some ((w.all_cards.filter (fun c => drawn.contains c.id)).map (fun c => c.id)), score := some 0 } := by
  have hpid : p.id = pid := getPlayer_id w pid p hp
  have hidle : ¬ (g.status = GameStatus.STARTED ∧ g.round_finished now = true) := by
    simp [hst]
  have hA : ((w.setGame g).setPlayer { p with current_game := some g.id }).getPlayer pid
      = some { p with current_game := some g.id } :=
    getPlayer_setPlayer _ { p with current_game := some g.id } pid hpid
      (by rw [getPlayer_setGame, hp]; rfl)
  unfold Game.add_player at h
  rw [update_state_skip f now w g q bd wd hq hbd hwd hidle] at h
  dsimp only at h
  rw [if_neg (show ¬ g.status = GameStatus.FINISHED by simp [hst])] at h
  by_cases hfull : ((w.setGame g).player_set g.id).length = Game.MAX_PLAYERS
  · rw [if_pos hfull] at h
    exact absurd h (by simp)
  · rw [if_neg hfull] at h
    rw [hq] at h
    dsimp only at h
    rw [getPlayer_setGame, hp] at h
    dsimp only at h
    unfold Game.deal_cards_to_player at h
    rw [hA] at h
    dsimp only at h
    rw [hhand] at h
    dsimp only [Option.getD] at h
    simp only [List.length_nil, Nat.sub_zero] at h
    rw [if_neg (show ¬ (Game.HAND_SIZE = 0) by decide)] at h
    rw [hwd] at h
    dsimp only at h
    cases hdraw : wd.draw_cards f Game.HAND_SIZE with
    | mk wd1 res =>
      rw [hdraw] at h
      cases res with
      | error e =>
        dsimp only at h
        exact absurd h (by simp)
      | ok drawn =>
        dsimp only at h
        simp only [List.nil_append, List.contains_nil, Bool.not_false, Bool.and_true,
          all_cards_setPlayer, all_cards_setGame] at h
        have hA2 : ((w.setGame g).setPlayer { p with current_game := some g.id, current_hand := none }).getPlayer pid = some { p with current_game := some g.id, current_hand := none } :=
          getPlayer_setPlayer _ _ pid hpid (by rw [getPlayer_setGame, hp]; rfl)
        have hB : (((w.setGame g).setPlayer { p with current_game := some g.id, current_hand := none }).setPlayer { p with current_game := some g.id, current_hand := some [] }).getPlayer pid = some { p with current_game := some g.id, current_hand := some [] } :=
          getPlayer_setPlayer _ _ pid hpid (by rw [hA2]; rfl)
        have hC : ((((w.setGame g).setPlayer { p with current_game := some g.id, current_hand := none }).setPlayer { p with current_game := some g.id, current_hand := some [] }).setPlayer { p with current_game := some g.id, current_hand := some ((w.all_cards.filter (fun c => drawn.contains c.id)).map (fun c => c.id)) }).getPlayer pid = some { p with current_game := some g.id, current_hand := some ((w.all_cards.filter (fun c => drawn.contains c.id)).map (fun c => c.id)) } :=
          getPlayer_setPlayer _ _ pid hpid (by rw [hB]; rfl)
        rw [hC] at h
        dsimp only at h
        simp only [Except.ok.injEq, Prod.mk.injEq] at h
        obtain ⟨hw1, hg1⟩ := h
        refine ⟨drawn, ?_, ?_, ?_⟩
        · simpa using draw_cards_ok_length f wd wd1 Game.HAND_SIZE drawn hdraw
        · rw [← hg1]
        · rw [← hw1]
          exact getPlayer_setPlayer _ _ pid (by exact hpid) (by rw [hC]; rfl)

/-- C9 witness. -/
theorem add_player_unconditional_deal_witness :
    ∃ drawn : List Nat, drawn.length = Game.HAND_SIZE
      ∧ gameW9after.player_queue = some (Queue.add_item { items := [1] } 4)
      ∧ worldW9after.getPlayer 4 = some { id := 4, current_game := some 0, current_hand := some ((worldW9.all_cards.filter (fun c => drawn.contains c.id)).map (fun c => c.id)), score := some 0 } :=
  add_player_unconditional_deal id 0 worldW9 worldW9after gameW9 gameW9after 4
    { items := [1] } { cards := [100], deque := [100], size := 1 }
    { cards := [41, 42, 43, 44, 45, 46, 47, 48, 49, 50], deque := [41, 42, 43, 44, 45, 46, 47, 48, 49, 50], size := 10 }
    { id := 4, current_game := none, current_hand := none, score := none }
    rfl rfl rfl rfl rfl rfl (by rfl)
